import Mathlib

/-!
Verification development for the `aws_dyn` repository (`src/demo.py`).

The repository is a thin Table Access Facade (class `Books`) over a managed
document store, plus a demo driver. The facade's request construction and
error branching are embedded below directly from `src/demo.py`. The document
store itself is an external collaborator (the managed database SDK), not part
of the repository; its behaviour is modelled from the spec (sections 3 and 6):
tables addressed by name, records addressed by the key pair (isbn, title),
point get/put/update/delete, batch put, query-by-sort-key, and a
distinguished "resource not found" error code.
-/

/-- Attribute values stored in a record: strings or numbers (the demo uses
only these two shapes). -/
inductive AttrVal where
  | s : String → AttrVal
  | n : Int → AttrVal
deriving DecidableEq

/-- A record (a Python dict): an association list from attribute names to
attribute values, preserving insertion order as Python dicts do. -/
abbrev Item := List (String × AttrVal)

/-- Association-list lookup: value at the first occurrence of the key. -/
def alookup {α β : Type} [DecidableEq α] : List (α × β) → α → Option β
  | [], _ => none
  | (a, b) :: rest, k => if a = k then some b else alookup rest k

/-- Association-list update: replace the value at the first occurrence of the
key, or append the binding at the end when the key is absent (the behaviour
of assignment into a Python dict). -/
def aset {α β : Type} [DecidableEq α] : List (α × β) → α → β → List (α × β)
  | [], k, v => [(k, v)]
  | (a, b) :: rest, k, v =>
    if a = k then (k, v) :: rest else (a, b) :: aset rest k v

/-- Association-list removal of the first occurrence of a key; the list is
unchanged when the key is absent. -/
def aremove {α β : Type} [DecidableEq α] : List (α × β) → α → List (α × β)
  | [], _ => []
  | (a, b) :: rest, k => if a = k then rest else (a, b) :: aremove rest k


/-- Key of a record within a table: the pair of partition key `isbn` and sort
key `title` (spec section 3). -/
structure BookKey where
  isbn : String
  title : String
deriving DecidableEq

/-- Attribute lookup in a record, as Python dict read access. -/
def Item.get (it : Item) (k : String) : Option AttrVal :=
  alookup it k

/-- Attribute assignment in a record, as Python dict write access. -/
def Item.set (it : Item) (k : String) (v : AttrVal) : Item :=
  aset it k v

/-- Key extraction from a full record: a record carries its key as the two
string attributes `isbn` and `title` (spec section 3 invariant: every record
must supply both key fields). -/
def Item.keyOf (it : Item) : Option BookKey :=
  match alookup it "isbn", alookup it "title" with
  | some (AttrVal.s i), some (AttrVal.s t) => some ⟨i, t⟩
  | _, _ => none

/-- A service error carrying a machine-readable code and a human message
(the `ClientError` of the source's `botocore` dependency, spec section 7). -/
structure ClientError where
  code : String
  message : String
deriving DecidableEq

/-- Errors a facade call can surface to its caller: a re-raised service
error, a Python `KeyError` from a dict access on a missing key, or a Python
`AttributeError` from a method call on `None`. -/
inductive PyError where
  | client : ClientError → PyError
  | keyError : String → PyError
  | attrError : PyError
deriving DecidableEq

/-- Modelled from the spec: the distinguished "resource not found" service
error code recognised by `Books.exists` (spec sections 6 and 7). -/
def resourceNotFound : ClientError :=
  ⟨"ResourceNotFoundException", "Requested resource not found"⟩

/-- Modelled from the spec: a generic validation failure from the store for a
record that does not supply both key fields (spec section 3: validation, if
any, happens server-side). -/
def validationError : ClientError :=
  ⟨"ValidationException", "Missing the key isbn or title in the item"⟩

/-- Contents of one table on the store: records addressed by their
(isbn, title) key. -/
abbrev TableItems := List (BookKey × Item)

/-- Modelled from the spec: the state of the Document Store Client
collaborator (spec section 6) — the tables visible to the credentials in
use, each with its stored records. -/
structure Store where
  tables : List (String × TableItems)
deriving DecidableEq

/-- Modelled from the spec: table metadata lookup by name. -/
def Store.findTable (s : Store) (name : String) : Option TableItems :=
  alookup s.tables name

/-- Modelled from the spec: replace (or create) the contents of one table. -/
def Store.setTable (s : Store) (name : String) (tbl : TableItems) : Store :=
  ⟨aset s.tables name tbl⟩

/-- Modelled from the spec: loading table metadata (`table.load()`) succeeds
when the table exists and fails with the "resource not found" code
otherwise. -/
def Store.load (s : Store) (name : String) : Except ClientError Unit :=
  match s.findTable name with
  | some _ => Except.ok ()
  | none => Except.error resourceNotFound

/-- Modelled from the spec: point put by key (`put_item`) — a whole-item
replacement of whatever record previously occupied the item's key. The item
must supply both string key fields; the target table must exist. -/
def Store.putItem (s : Store) (t : String) (it : Item) :
    Except ClientError Store :=
  match s.findTable t with
  | none => Except.error resourceNotFound
  | some tbl =>
    match it.keyOf with
    | none => Except.error validationError
    | some k => Except.ok (s.setTable t (aset tbl k it))

/-- Modelled from the spec: point lookup by full key (`get_item`) — the reply
carries the record when one is stored at the key and carries no item
attribute otherwise. -/
def Store.getItem (s : Store) (t : String) (k : BookKey) :
    Except ClientError (Option Item) :=
  match s.findTable t with
  | none => Except.error resourceNotFound
  | some tbl => Except.ok (alookup tbl k)

/-- Modelled from the spec: `update_item` with update expression
`set author=:a, pages=:p` and return values `UPDATED_NEW` — sets the two
attributes on the record at the key, creating the record from its key
attributes when none exists (upsert), and replies with the post-update
values of exactly the updated attributes. -/
def Store.updateItem (s : Store) (t : String) (k : BookKey)
    (a p : AttrVal) : Except ClientError (Item × Store) :=
  match s.findTable t with
  | none => Except.error resourceNotFound
  | some tbl =>
    let base : Item :=
      match alookup tbl k with
      | some it => it
      | none => [("isbn", AttrVal.s k.isbn), ("title", AttrVal.s k.title)]
    let updated := (base.set "author" a).set "pages" p
    Except.ok ([("author", a), ("pages", p)],
      s.setTable t (aset tbl k updated))

/-- Modelled from the spec: unconditional point delete by full key
(`delete_item`); deleting an absent key is not an error. -/
def Store.deleteItem (s : Store) (t : String) (k : BookKey) :
    Except ClientError Store :=
  match s.findTable t with
  | none => Except.error resourceNotFound
  | some tbl => Except.ok (s.setTable t (aremove tbl k))

/-- Modelled from the spec: query-by-sort-key (spec section 6) — the reply
carries every stored record of the table whose sort-key value `title`
equals the requested value, and an empty sequence when none matches. -/
def Store.query (s : Store) (t : String) (title : String) :
    Except ClientError (List Item) :=
  match s.findTable t with
  | none => Except.error resourceNotFound
  | some tbl =>
    Except.ok ((tbl.filter (fun p => decide (p.1.title = title))).map Prod.snd)

/-- Modelled from the spec: dropping a table by name (`table.delete()`). -/
def Store.deleteTable (s : Store) (t : String) : Except ClientError Store :=
  match s.findTable t with
  | none => Except.error resourceNotFound
  | some _ => Except.ok ⟨aremove s.tables t⟩

/-- The Table Access Facade (`class Books` in `src/demo.py`): its only
instance state is the retained table handle `self.table`, modelled by the
table's name (`None` before `exists`/`create_table` succeeds). -/
structure Books where
  table : Option String
deriving DecidableEq

/-- Core of `Books.exists` (`src/demo.py` lines 15-38) as a function of the
collaborator's reply to `table.load()`: success yields `True` and retains
the handle; a `ClientError` whose code is `ResourceNotFoundException` yields
`False` without touching the handle; any other `ClientError` is logged and
re-raised. -/
def exists_core (b : Books) (table_name : String)
    (loadReply : Except ClientError Unit) : Except ClientError (Bool × Books) :=
  match loadReply with
  | Except.error err =>
    if err.code = "ResourceNotFoundException" then
      Except.ok (false, b)
    else
      Except.error err
  | Except.ok _ => Except.ok (true, { table := some table_name })

/-- `Books.exists` run against the modelled store: the reply to
`table.load()` is determined by whether the store knows the table. -/
def Books.existsTable (b : Books) (s : Store) (table_name : String) :
    Except ClientError (Bool × Books) :=
  exists_core b table_name (s.load table_name)

/-- The table-creation request built by `Books.create_table`
(`src/demo.py` lines 40-60): table name, key schema, attribute definitions
and provisioned throughput, exactly as passed to `create_table`. -/
structure CreateTableRequest where
  tableName : String
  keySchema : List (String × String)
  attributeDefinitions : List (String × String)
  readCapacityUnits : Nat
  writeCapacityUnits : Nat
deriving DecidableEq

/-- The one request `Books.create_table` constructs for a given table name:
partition key `isbn` (HASH) and sort key `title` (RANGE), both declared with
string type `S`, and provisioned capacity read=10, write=10. -/
def Books.createTableRequest (table_name : String) : CreateTableRequest :=
  { tableName := table_name
    keySchema := [("isbn", "HASH"), ("title", "RANGE")]
    attributeDefinitions := [("isbn", "S"), ("title", "S")]
    readCapacityUnits := 10
    writeCapacityUnits := 10 }

/-- Core of `Books.create_table` (`src/demo.py` lines 40-60) as a function of
the collaborator's reply to the issued request (the reply covers both the
creation call and the synchronous `wait_until_exists`): the first component
lists every request issued — exactly one, with no retry on failure — and the
second is the outcome: on success the handle is stored in the facade and
returned, on `ClientError` the error is logged and re-raised. -/
def create_table_run (_b : Books) (table_name : String)
    (reply : CreateTableRequest → Except ClientError Unit) :
    List CreateTableRequest × Except ClientError (String × Books) :=
  let req := Books.createTableRequest table_name
  ([req],
    match reply req with
    | Except.error e => Except.error e
    | Except.ok _ => Except.ok (table_name, { table := some table_name }))

/-- `Books.add_book` (`src/demo.py` lines 87-101): `put_item` with the item
dict holding exactly `isbn`, `title`, `author` and `pages`; a `ClientError`
is logged and re-raised. Calling it with no retained handle is a Python
`AttributeError` on `None`. -/
def Books.add_book (b : Books) (s : Store) (isbn title author : String)
    (pages : Int) : Except PyError Store :=
  match b.table with
  | none => Except.error PyError.attrError
  | some t =>
    match s.putItem t
        [("isbn", AttrVal.s isbn), ("title", AttrVal.s title),
         ("author", AttrVal.s author), ("pages", AttrVal.n pages)] with
    | Except.error e => Except.error (PyError.client e)
    | Except.ok s1 => Except.ok s1

/-- `Books.get_book` (`src/demo.py` lines 103-113): `get_item` by full key,
then an unconditional dict access `response["Item"]` — when the reply
carries no item, that access is a Python `KeyError` on the name `Item`. A
`ClientError` from the store is logged and re-raised. -/
def Books.get_book (b : Books) (s : Store) (isbn title : String) :
    Except PyError Item :=
  match b.table with
  | none => Except.error PyError.attrError
  | some t =>
    match s.getItem t ⟨isbn, title⟩ with
    | Except.error e => Except.error (PyError.client e)
    | Except.ok (some it) => Except.ok it
    | Except.ok none => Except.error (PyError.keyError "Item")

/-- `Books.update_book` (`src/demo.py` lines 115-130): `update_item` with
update expression `set author=:a, pages=:p` and `ReturnValues` set to
`UPDATED_NEW`, returning `response["Attributes"]`; a `ClientError` is logged
and re-raised. -/
def Books.update_book (b : Books) (s : Store) (isbn title author : String)
    (pages : Int) : Except PyError (Item × Store) :=
  match b.table with
  | none => Except.error PyError.attrError
  | some t =>
    match s.updateItem t ⟨isbn, title⟩ (AttrVal.s author) (AttrVal.n pages) with
    | Except.error e => Except.error (PyError.client e)
    | Except.ok (attrs, s1) => Except.ok (attrs, s1)

/-- `Books.query_book` (`src/demo.py` lines 132-142): a query whose key
condition is equality of `title`, returning `response["Items"]`; a
`ClientError` is logged and re-raised. -/
def Books.query_book (b : Books) (s : Store) (title : String) :
    Except PyError (List Item) :=
  match b.table with
  | none => Except.error PyError.attrError
  | some t =>
    match s.query t title with
    | Except.error e => Except.error (PyError.client e)
    | Except.ok its => Except.ok its

/-- `Books.delete_book` (`src/demo.py` lines 144-151): unconditional
`delete_item` by full key; a `ClientError` is logged and re-raised. -/
def Books.delete_book (b : Books) (s : Store) (isbn title : String) :
    Except PyError Store :=
  match b.table with
  | none => Except.error PyError.attrError
  | some t =>
    match s.deleteItem t ⟨isbn, title⟩ with
    | Except.error e => Except.error (PyError.client e)
    | Except.ok s1 => Except.ok s1

/-- `Books.write_batch` (`src/demo.py` lines 76-85): the batch writer issues
one `put_item` per record, in order; the first `ClientError` is logged and
re-raised, abandoning the rest of the batch. -/
def writeAll (t : String) : Store → List Item → Except PyError Store
  | s, [] => Except.ok s
  | s, it :: rest =>
    match s.putItem t it with
    | Except.error e => Except.error (PyError.client e)
    | Except.ok s1 => writeAll t s1 rest

/-- `Books.write_batch` entry point: requires the retained handle, then
writes every record through the batch writer. -/
def Books.write_batch (b : Books) (s : Store) (books : List Item) :
    Except PyError Store :=
  match b.table with
  | none => Except.error PyError.attrError
  | some t => writeAll t s books

/-- Core of `Books.delete_table` (`src/demo.py` lines 153-161) as a function
of the collaborator's reply to `table.delete()`: on success the retained
handle is cleared to `None`; on `ClientError` the error is logged and
re-raised and the handle is left as it was (the assignment to `None` sits
after the remote call inside the `try`). With no retained handle the remote
call itself is a Python `AttributeError` on `None`. -/
def delete_table_run (b : Books) (reply : Except ClientError Unit) :
    Except PyError Unit × Books :=
  match b.table with
  | none => (Except.error PyError.attrError, b)
  | some _ =>
    match reply with
    | Except.ok _ => (Except.ok (), { table := none })
    | Except.error e => (Except.error (PyError.client e), b)

/-- The fixed table name used by the process entry point of `src/demo.py`. -/
def demoTableName : String := "table-books"

/-- First record of the batch written by `run_scenario`
(`src/demo.py` lines 200-211). -/
def demoBook1 : Item :=
  [("isbn", AttrVal.s "9781593279509"),
   ("title", AttrVal.s "Eloquent JavaScript, Third Edition"),
   ("subtitle", AttrVal.s "A Modern Introduction to Programming"),
   ("author", AttrVal.s "Marijn Haverbeke"),
   ("published", AttrVal.s "2018-12-04T00:00:00.000Z"),
   ("publisher", AttrVal.s "No Starch Press"),
   ("pages", AttrVal.n 472),
   ("description", AttrVal.s "JavaScript lies at the heart of almost every modern web application, from social apps like Twitter to browser-based game frameworks like Phaser and Babylon. Though simple for beginners to pick up and play with, JavaScript is a flexible, complex language that you can use to build full-scale applications."),
   ("website", AttrVal.s "http://eloquentjavascript.net/")]

/-- Second record of the batch written by `run_scenario`
(`src/demo.py` lines 212-222). -/
def demoBook2 : Item :=
  [("isbn", AttrVal.s "9781491943533"),
   ("title", AttrVal.s "Practical Modern JavaScript"),
   ("subtitle", AttrVal.s "Dive into ES6 and the Future of JavaScript"),
   ("author", AttrVal.s "Nicol√°s Bevacqua"),
   ("published", AttrVal.s "2017-07-16T00:00:00.000Z"),
   ("publisher", AttrVal.s "O\x27Reilly Media"),
   ("pages", AttrVal.n 334),
   ("description", AttrVal.s "To get the most out of modern JavaScript, you need learn the latest features of its parent specification, ECMAScript 6 (ES6). This book provides a highly practical look at ES6, without getting lost in the specification or its implementation details."),
   ("website", AttrVal.s "https://github.com/mjavascript/practical-modern-javascript")]

/-- Third record of the batch written by `run_scenario`
(`src/demo.py` lines 223-233). -/
def demoBook3 : Item :=
  [("isbn", AttrVal.s "9781593277574"),
   ("title", AttrVal.s "Understanding ECMAScript 6"),
   ("subtitle", AttrVal.s "The Definitive Guide for JavaScript Developers"),
   ("author", AttrVal.s "Nicholas C. Zakas"),
   ("published", AttrVal.s "2016-09-03T00:00:00.000Z"),
   ("publisher", AttrVal.s "No Starch Press"),
   ("pages", AttrVal.n 352),
   ("description", AttrVal.s "ECMAScript 6 represents the biggest update to the core of JavaScript in the history of the language. In Understanding ECMAScript 6, expert developer Nicholas C. Zakas provides a complete guide to the object types, new functions, and other exciting changes that ECMAScript 6 brings to JavaScript."),
   ("website", AttrVal.s "https://leanpub.com/understandinges6/read")]

/-- The full batch written by `run_scenario` (`src/demo.py` lines 200-233). -/
def demoBatch : List Item :=
  [demoBook1, demoBook2, demoBook3]

/-- A store holding one empty table named `table-books`. -/
def store0 : Store := ⟨[(demoTableName, [])]⟩

/-- A facade instance retaining the handle of the `table-books` table. -/
def b0 : Books := ⟨some demoTableName⟩

/-- The key of the first demo book. -/
def demoKey1 : BookKey :=
  ⟨"9781593279509", "Eloquent JavaScript, Third Edition"⟩

/-- A store holding the `table-books` table with the first demo book (which
carries attributes beyond the four core fields) already stored. -/
def store2 : Store := ⟨[(demoTableName, [(demoKey1, demoBook1)])]⟩

theorem alookup_aset_self {α β : Type} [DecidableEq α]
    (l : List (α × β)) (k : α) (v : β) : alookup (aset l k v) k = some v := by
  induction l with
  | nil => simp [aset, alookup]
  | cons hd tl ih =>
    obtain ⟨a, b⟩ := hd
    by_cases h : a = k
    · simp [aset, h, alookup]
    · simp [aset, h, alookup, ih]

theorem alookup_aset_ne {α β : Type} [DecidableEq α]
    (l : List (α × β)) (k k' : α) (v : β) (h : k' ≠ k) :
    alookup (aset l k v) k' = alookup l k' := by
  induction l with
  | nil => simp [aset, alookup, Ne.symm h]
  | cons hd tl ih =>
    obtain ⟨a, b⟩ := hd
    by_cases ha : a = k
    · subst ha
      simp [aset, alookup, Ne.symm h]
    · simp [aset, ha, alookup, ih]

theorem aremove_of_alookup_none {α β : Type} [DecidableEq α]
    (l : List (α × β)) (k : α) (h : alookup l k = none) : aremove l k = l := by
  induction l with
  | nil => simp [aremove]
  | cons hd tl ih =>
    obtain ⟨a, b⟩ := hd
    by_cases ha : a = k
    · simp [alookup, ha] at h
    · simp [alookup, ha] at h
      simp [aremove, ha, ih h]

theorem findTable_setTable_self (s : Store) (t : String) (tbl : TableItems) :
    (s.setTable t tbl).findTable t = some tbl := by
  simp [Store.findTable, Store.setTable, alookup_aset_self]

theorem findTable_setTable_ne (s : Store) (t t' : String) (tbl : TableItems)
    (h : t' ≠ t) : (s.setTable t tbl).findTable t' = s.findTable t' := by
  simp [Store.findTable, Store.setTable, alookup_aset_ne _ _ _ _ h]

/-- Claim C1, counterexample to the claim as stated: on a store holding the
demo table with no records, `get_book` on the key of the first demo book
does not return an absent/None result — it raises the Python `KeyError` on
the missing `Item` attribute of the reply, so its outcome is not a normal
return at all. -/
theorem C1_counterexample :
    Books.get_book b0 store0 "9781593279509" "Eloquent JavaScript, Third Edition"
      = Except.error (PyError.keyError "Item") ∧
    (Books.get_book b0 store0 "9781593279509"
      "Eloquent JavaScript, Third Edition").isOk = false :=
  ⟨rfl, rfl⟩

/-- Claim C1 (amended): for every key (isbn, title) such that no record with
that key is stored in the table, `get_book(isbn, title)` raises a `KeyError`
on the missing `Item` attribute of the store's reply — it does not return an
explicit absent/None result. -/
theorem C1_get_book_missing_raises
    (b : Books) (s : Store) (t : String) (tbl : TableItems)
    (isbn title : String)
    (hb : b.table = some t) (ht : s.findTable t = some tbl)
    (habs : alookup tbl ⟨isbn, title⟩ = none) :
    Books.get_book b s isbn title = Except.error (PyError.keyError "Item") := by
  simp [Books.get_book, hb, Store.getItem, ht, habs]

/-- Claim C1 witness: the amended statement applied to the empty demo
table. -/
theorem C1_get_book_missing_raises_witness :
    Books.get_book b0 store0 "x" "y" = Except.error (PyError.keyError "Item") :=
  C1_get_book_missing_raises b0 store0 demoTableName [] "x" "y" rfl rfl rfl

/-- Claim C2: `exists` returns true when the store finds the table's
metadata (retaining the handle), returns false without raising exactly when
the load fails with code `ResourceNotFoundException`, re-raises every other
service error, and in particular returns false without raising on a store
that does not know the table. -/
theorem C2_exists_classifies
    (b : Books) (table_name : String) :
    (exists_core b table_name (Except.ok ())
        = Except.ok (true, { table := some table_name })) ∧
    (∀ e : ClientError, e.code = "ResourceNotFoundException" →
      exists_core b table_name (Except.error e) = Except.ok (false, b)) ∧
    (∀ e : ClientError, e.code ≠ "ResourceNotFoundException" →
      exists_core b table_name (Except.error e) = Except.error e) ∧
    (∀ s : Store, s.findTable table_name = none →
      Books.existsTable b s table_name = Except.ok (false, b)) := by
  refine ⟨rfl, ?_, ?_, ?_⟩
  · intro e he
    simp [exists_core, he]
  · intro e he
    simp [exists_core, he]
  · intro s hs
    simp [Books.existsTable, Store.load, hs, exists_core, resourceNotFound]

/-- Claim C2 witness: a fresh facade checking a never-created table on an
empty store gets `false` back and no error, and a service error with a
different code is re-raised. -/
theorem C2_exists_classifies_witness :
    Books.existsTable ⟨none⟩ ⟨[]⟩ demoTableName = Except.ok (false, ⟨none⟩) ∧
    exists_core ⟨none⟩ demoTableName
        (Except.error ⟨"InternalServerError", "boom"⟩)
      = Except.error ⟨"InternalServerError", "boom"⟩ :=
  ⟨(C2_exists_classifies ⟨none⟩ demoTableName).2.2.2 ⟨[]⟩ rfl,
   (C2_exists_classifies ⟨none⟩ demoTableName).2.2.1
     ⟨"InternalServerError", "boom"⟩ (by decide)⟩

theorem aset_of_alookup_some {α β : Type} [DecidableEq α]
    (l : List (α × β)) (k : α) (v : β) (h : alookup l k = some v) :
    aset l k v = l := by
  induction l with
  | nil => simp [alookup] at h
  | cons hd tl ih =>
    obtain ⟨a, b⟩ := hd
    by_cases ha : a = k
    · subst ha
      simp [alookup] at h
      simp [aset, h]
    · simp [alookup, ha] at h
      simp [aset, ha, ih h]

/-- Claim C3: on an extant record, `update_book` succeeds returning exactly
the two updated attribute values; in the stored record, `author` and `pages`
now hold the supplied values while every other attribute is unchanged; and
records at every other key are untouched. -/
theorem C3_update_book_frame
    (b : Books) (s : Store) (t : String) (tbl : TableItems)
    (isbn title author : String) (pages : Int) (it0 : Item)
    (hb : b.table = some t) (ht : s.findTable t = some tbl)
    (h0 : alookup tbl ⟨isbn, title⟩ = some it0) :
    ∃ s' : Store,
      Books.update_book b s isbn title author pages
        = Except.ok
            ([("author", AttrVal.s author), ("pages", AttrVal.n pages)], s') ∧
      (∃ it1 : Item,
        Store.getItem s' t ⟨isbn, title⟩ = Except.ok (some it1) ∧
        it1.get "author" = some (AttrVal.s author) ∧
        it1.get "pages" = some (AttrVal.n pages) ∧
        ∀ a : String, a ≠ "author" → a ≠ "pages" → it1.get a = it0.get a) ∧
      (∀ k' : BookKey, k' ≠ ⟨isbn, title⟩ →
        Store.getItem s' t k' = Store.getItem s t k') := by
  refine ⟨s.setTable t (aset tbl ⟨isbn, title⟩
      ((it0.set "author" (AttrVal.s author)).set "pages" (AttrVal.n pages))),
    ?_, ⟨(it0.set "author" (AttrVal.s author)).set "pages" (AttrVal.n pages),
      ?_, ?_, ?_, ?_⟩, ?_⟩
  · simp [Books.update_book, hb, Store.updateItem, ht, h0]
  · simp [Store.getItem, findTable_setTable_self, alookup_aset_self]
  · simp [Item.get, Item.set,
      alookup_aset_ne _ _ _ _ (by decide : ("author" : String) ≠ "pages"),
      alookup_aset_self]
  · simp [Item.get, Item.set, alookup_aset_self]
  · intro a ha hp
    simp [Item.get, Item.set,
      alookup_aset_ne _ _ _ _ hp, alookup_aset_ne _ _ _ _ ha]
  · intro k' hk
    simp [Store.getItem, findTable_setTable_self, ht,
      alookup_aset_ne _ _ _ _ hk]

/-- Claim C3 witness: updating the stored demo book returns exactly the new
`author` and `pages`, the stored record keeps its `publisher` attribute, and
the other demo key is untouched. -/
theorem C3_update_book_frame_witness :
    ∃ s' : Store,
      Books.update_book b0 store2 "9781593279509"
          "Eloquent JavaScript, Third Edition" "John" 1000
        = Except.ok
            ([("author", AttrVal.s "John"), ("pages", AttrVal.n 1000)], s') ∧
      ∃ it1 : Item,
        Store.getItem s' demoTableName demoKey1 = Except.ok (some it1) ∧
        it1.get "publisher" = demoBook1.get "publisher" := by
  obtain ⟨s', h1, ⟨it1, h2, h3, h4, h5⟩, h6⟩ :=
    C3_update_book_frame b0 store2 demoTableName [(demoKey1, demoBook1)]
      "9781593279509" "Eloquent JavaScript, Third Edition" "John" 1000
      demoBook1 rfl rfl rfl
  exact ⟨s', h1, it1, h2, h5 "publisher" (by decide) (by decide)⟩

/-- Claim C4: against any prior store state holding the table — so in
particular after any earlier writes to the same key — a successful
`add_book(isbn, title, author, pages)` followed by `get_book(isbn, title)`
returns a record whose `author` and `pages` equal the values just written
(last-write-wins put/get round-trip). -/
theorem C4_add_get_roundtrip
    (b : Books) (s : Store) (t : String) (tbl : TableItems)
    (isbn title author : String) (pages : Int)
    (hb : b.table = some t) (ht : s.findTable t = some tbl) :
    ∃ s' : Store,
      Books.add_book b s isbn title author pages = Except.ok s' ∧
      ∃ it : Item,
        Books.get_book b s' isbn title = Except.ok it ∧
        it.get "author" = some (AttrVal.s author) ∧
        it.get "pages" = some (AttrVal.n pages) := by
  refine ⟨s.setTable t (aset tbl ⟨isbn, title⟩
      [("isbn", AttrVal.s isbn), ("title", AttrVal.s title),
       ("author", AttrVal.s author), ("pages", AttrVal.n pages)]), ?_,
    [("isbn", AttrVal.s isbn), ("title", AttrVal.s title),
     ("author", AttrVal.s author), ("pages", AttrVal.n pages)], ?_, ?_, ?_⟩
  · simp [Books.add_book, hb, Store.putItem, ht, Item.keyOf, alookup]
  · simp [Books.get_book, hb, Store.getItem, findTable_setTable_self,
      alookup_aset_self]
  · simp [Item.get, alookup]
  · simp [Item.get, alookup]

/-- Claim C4 witness: overwriting the stored demo book (an earlier write to
the same key) and reading it back yields the newly written `author` and
`pages`. -/
theorem C4_add_get_roundtrip_witness :
    ∃ s' : Store,
      Books.add_book b0 store2 "9781593279509"
          "Eloquent JavaScript, Third Edition" "Someone Else" 7 = Except.ok s' ∧
      ∃ it : Item,
        Books.get_book b0 s' "9781593279509"
            "Eloquent JavaScript, Third Edition" = Except.ok it ∧
        it.get "author" = some (AttrVal.s "Someone Else") ∧
        it.get "pages" = some (AttrVal.n 7) :=
  C4_add_get_roundtrip b0 store2 demoTableName [(demoKey1, demoBook1)]
    "9781593279509" "Eloquent JavaScript, Third Edition" "Someone Else" 7
    rfl rfl

/-- Claim C5, counterexample to the claim as stated: deleting a key that was
never stored succeeds without raising, but the subsequent `get_book` on that
key does not return an absent result — it raises the Python `KeyError` on
the missing `Item` attribute. -/
theorem C5_counterexample :
    Books.delete_book b0 store0 "x" "y" = Except.ok store0 ∧
    Books.get_book b0 store0 "x" "y"
      = Except.error (PyError.keyError "Item") ∧
    (Books.get_book b0 store0 "x" "y").isOk = false :=
  ⟨rfl, rfl, rfl⟩

/-- Claim C5 (amended): `delete_book` on a key with no stored record does not
raise and leaves the store unchanged (it is idempotent); the subsequent
`get_book` on that key finds no record — it raises the `KeyError` on the
missing `Item` attribute of the reply rather than returning a record. -/
theorem C5_delete_book_missing
    (b : Books) (s : Store) (t : String) (tbl : TableItems)
    (isbn title : String)
    (hb : b.table = some t) (ht : s.findTable t = some tbl)
    (habs : alookup tbl ⟨isbn, title⟩ = none) :
    Books.delete_book b s isbn title = Except.ok s ∧
    Books.get_book b s isbn title = Except.error (PyError.keyError "Item") := by
  constructor
  · have hrem : aremove tbl (⟨isbn, title⟩ : BookKey) = tbl :=
      aremove_of_alookup_none tbl _ habs
    have hset : s.setTable t tbl = s := by
      cases s with
      | mk tables =>
        simp [Store.setTable]
        exact aset_of_alookup_some tables t tbl ht
    simp [Books.delete_book, hb, Store.deleteItem, ht, hrem, hset]
  · simp [Books.get_book, hb, Store.getItem, ht, habs]

/-- Claim C5 witness: the amended statement applied to the empty demo
table. -/
theorem C5_delete_book_missing_witness :
    Books.delete_book b0 store0 "x" "y" = Except.ok store0 ∧
    Books.get_book b0 store0 "x" "y"
      = Except.error (PyError.keyError "Item") :=
  C5_delete_book_missing b0 store0 demoTableName [] "x" "y" rfl rfl rfl

/-- Claim C6: `query_book(title)` returns the sequence of all stored records
whose sort-key `title` equals the given value — an empty sequence, not an
absent value, when no record matches — and, after batch-writing the demo
records, `query_book` on `Understanding ECMAScript 6` returns exactly one
record, whose `isbn` is `9781593277574`. -/
theorem C6_query_book
    (b : Books) (s : Store) (t : String) (tbl : TableItems) (title : String)
    (hb : b.table = some t) (ht : s.findTable t = some tbl) :
    (∃ l : List Item, Books.query_book b s title = Except.ok l ∧
      (∀ it : Item, it ∈ l ↔ ∃ k : BookKey, (k, it) ∈ tbl ∧ k.title = title) ∧
      ((∀ k : BookKey, ∀ it : Item, (k, it) ∈ tbl → k.title ≠ title) →
        l = [])) ∧
    (∃ s' : Store, Books.write_batch b0 store0 demoBatch = Except.ok s' ∧
      ∃ l : List Item,
        Books.query_book b0 s' "Understanding ECMAScript 6" = Except.ok l ∧
        l = [demoBook3] ∧
        demoBook3.get "isbn" = some (AttrVal.s "9781593277574")) := by
  constructor
  · refine ⟨(tbl.filter (fun p => decide (p.1.title = title))).map Prod.snd,
      ?_, ?_, ?_⟩
    · simp [Books.query_book, hb, Store.query, ht]
    · intro it
      simp only [List.mem_map, List.mem_filter, decide_eq_true_eq]
      constructor
      · rintro ⟨⟨k, it2⟩, ⟨hmem, htl⟩, rfl⟩
        exact ⟨k, hmem, htl⟩
      · rintro ⟨k, hmem, htl⟩
        exact ⟨(k, it), ⟨hmem, htl⟩, rfl⟩
    · intro hnone
      apply List.eq_nil_iff_forall_not_mem.mpr
      intro it hit
      simp only [List.mem_map, List.mem_filter, decide_eq_true_eq] at hit
      obtain ⟨⟨k, it2⟩, ⟨hmem, htl⟩, rfl⟩ := hit
      exact hnone k it2 hmem htl
  · exact ⟨_, rfl, [demoBook3], rfl, rfl, rfl⟩

/-- Claim C6 witness: on a table holding only the first demo book, a query
for a title no record carries returns the empty sequence. -/
theorem C6_query_book_witness :
    ∃ l : List Item,
      Books.query_book b0 store2 "no such title" = Except.ok l ∧ l = [] := by
  obtain ⟨⟨l, h1, h2, h3⟩, -⟩ :=
    C6_query_book b0 store2 demoTableName [(demoKey1, demoBook1)]
      "no such title" rfl rfl
  refine ⟨l, h1, h3 ?_⟩
  intro k it hmem
  rw [List.mem_singleton, Prod.ext_iff] at hmem
  have hk : k = demoKey1 := hmem.1
  rw [hk]
  decide

theorem putItem_ok_cases (s s' : Store) (t : String) (it : Item)
    (h : s.putItem t it = Except.ok s') :
    ∃ tbl k, s.findTable t = some tbl ∧ it.keyOf = some k ∧
      s' = s.setTable t (aset tbl k it) := by
  cases hft : s.findTable t with
  | none => simp [Store.putItem, hft] at h
  | some tbl =>
    cases hk : it.keyOf with
    | none => simp [Store.putItem, hft, hk] at h
    | some k =>
      simp only [Store.putItem, hft, hk, Except.ok.injEq] at h
      exact ⟨tbl, k, rfl, rfl, h.symm⟩

theorem putItem_getItem_self (s s' : Store) (t : String) (it : Item)
    (k : BookKey) (h : s.putItem t it = Except.ok s')
    (hk : it.keyOf = some k) :
    Store.getItem s' t k = Except.ok (some it) := by
  obtain ⟨tbl, k2, hft, hk2, rfl⟩ := putItem_ok_cases s s' t it h
  rw [hk] at hk2
  injection hk2 with hkk
  subst hkk
  simp [Store.getItem, findTable_setTable_self, alookup_aset_self]

theorem putItem_getItem_ne (s s' : Store) (t : String) (it : Item)
    (k' : BookKey) (h : s.putItem t it = Except.ok s')
    (hne : it.keyOf ≠ some k') :
    Store.getItem s' t k' = Store.getItem s t k' := by
  obtain ⟨tbl, k, hft, hk, rfl⟩ := putItem_ok_cases s s' t it h
  have hkk : k' ≠ k := fun hkk => hne (hkk ▸ hk)
  simp [Store.getItem, findTable_setTable_self, hft,
    alookup_aset_ne _ _ _ _ hkk]

theorem writeAll_getItem_ne (t : String) (k : BookKey) :
    ∀ (l : List Item) (s s' : Store),
      writeAll t s l = Except.ok s' →
      (∀ it ∈ l, it.keyOf ≠ some k) →
      Store.getItem s' t k = Store.getItem s t k := by
  intro l
  induction l with
  | nil =>
    intro s s' h _
    simp [writeAll] at h
    rw [h]
  | cons it rest ih =>
    intro s s' h hk
    cases hput : s.putItem t it with
    | error e => simp [writeAll, hput] at h
    | ok s1 =>
      simp only [writeAll, hput] at h
      rw [ih s1 s' h (fun it2 h2 => hk it2 (List.mem_cons_of_mem _ h2))]
      exact putItem_getItem_ne s s1 t it k hput (hk it (List.mem_cons_self _ _))

theorem writeAll_get_all (t : String) :
    ∀ (l : List Item) (s s' : Store),
      writeAll t s l = Except.ok s' →
      (l.map Item.keyOf).Nodup →
      ∀ it ∈ l, ∀ k : BookKey, it.keyOf = some k →
        Store.getItem s' t k = Except.ok (some it) := by
  intro l
  induction l with
  | nil =>
    intro s s' _ _ it hmem
    cases hmem
  | cons it0 rest ih =>
    intro s s' h hnd it hmem k hk
    rw [List.map_cons, List.nodup_cons] at hnd
    cases hput : s.putItem t it0 with
    | error e => simp [writeAll, hput] at h
    | ok s1 =>
      simp only [writeAll, hput] at h
      rcases List.mem_cons.mp hmem with rfl | hmem2
      · have hother : ∀ it2 ∈ rest, it2.keyOf ≠ some k := by
          intro it2 h2 hk2
          apply hnd.1
          rw [hk, ← hk2]
          exact List.mem_map_of_mem _ h2
        rw [writeAll_getItem_ne t k rest s1 s' h hother]
        exact putItem_getItem_self s s1 t it k hput hk
      · exact ih s1 s' h hnd.2 it hmem2 k hk

/-- Claim C7: for a collection of full records — each carrying both key
fields, with pairwise distinct keys — a successful `write_batch` followed by
one `get_book` per record on that record's key returns every record exactly
as written: the batch path stores records identically to single-item
writes. -/
theorem C7_write_batch_roundtrip
    (b : Books) (s : Store) (t : String) (books : List Item) (s' : Store)
    (hb : b.table = some t)
    (_hfull : ∀ it ∈ books, ∃ k : BookKey, it.keyOf = some k)
    (hnd : (books.map Item.keyOf).Nodup)
    (h : Books.write_batch b s books = Except.ok s') :
    ∀ it ∈ books, ∀ k : BookKey, it.keyOf = some k →
      Books.get_book b s' k.isbn k.title = Except.ok it := by
  intro it hmem k hk
  have hw : writeAll t s books = Except.ok s' := by
    simpa [Books.write_batch, hb] using h
  have hgi := writeAll_get_all t books s s' hw hnd it hmem k hk
  simp [Books.get_book, hb, hgi]

set_option maxRecDepth 4000 in
/-- Claim C7 witness: batch-writing the three demo records into the empty
demo table and reading the second one back by its key returns it exactly as
written. -/
theorem C7_write_batch_roundtrip_witness :
    ∃ s' : Store, Books.write_batch b0 store0 demoBatch = Except.ok s' ∧
      Books.get_book b0 s' "9781491943533" "Practical Modern JavaScript"
        = Except.ok demoBook2 := by
  refine ⟨_, rfl, ?_⟩
  exact C7_write_batch_roundtrip b0 store0 demoTableName demoBatch _ rfl
    (by
      intro it hmem
      simp only [demoBatch, List.mem_cons, List.not_mem_nil, or_false] at hmem
      rcases hmem with rfl | rfl | rfl
      · exact ⟨demoKey1, rfl⟩
      · exact ⟨⟨"9781491943533", "Practical Modern JavaScript"⟩, rfl⟩
      · exact ⟨⟨"9781593277574", "Understanding ECMAScript 6"⟩, rfl⟩)
    (by decide) rfl demoBook2 (by decide)
    ⟨"9781491943533", "Practical Modern JavaScript"⟩ rfl

/-- Claim C8: `create_table(table_name)` issues exactly one table-creation
request — partition key `isbn` of string type, sort key `title` of string
type, provisioned capacity read=10 and write=10 — for the given table name;
when the issued request (including the synchronous wait for the table to
become ready) succeeds, the handle is stored in the facade and returned;
when it fails with a service error, that same error is re-raised with no
further request issued. -/
theorem C8_create_table
    (b : Books) (table_name : String)
    (reply : CreateTableRequest → Except ClientError Unit) :
    (create_table_run b table_name reply).1
      = [Books.createTableRequest table_name] ∧
    (Books.createTableRequest table_name).tableName = table_name ∧
    (Books.createTableRequest table_name).keySchema
      = [("isbn", "HASH"), ("title", "RANGE")] ∧
    (Books.createTableRequest table_name).attributeDefinitions
      = [("isbn", "S"), ("title", "S")] ∧
    (Books.createTableRequest table_name).readCapacityUnits = 10 ∧
    (Books.createTableRequest table_name).writeCapacityUnits = 10 ∧
    (reply (Books.createTableRequest table_name) = Except.ok () →
      (create_table_run b table_name reply).2
        = Except.ok (table_name, { table := some table_name })) ∧
    (∀ e : ClientError,
      reply (Books.createTableRequest table_name) = Except.error e →
      (create_table_run b table_name reply).2 = Except.error e) := by
  refine ⟨rfl, rfl, rfl, rfl, rfl, rfl, ?_, ?_⟩
  · intro h
    simp [create_table_run, h]
  · intro e he
    simp [create_table_run, he]

/-- Claim C8 witness: creating the demo table against a store that accepts
the request issues the one expected request and returns the retained
handle. -/
theorem C8_create_table_witness :
    (create_table_run ⟨none⟩ demoTableName (fun _ => Except.ok ())).1
      = [Books.createTableRequest demoTableName] ∧
    (create_table_run ⟨none⟩ demoTableName (fun _ => Except.ok ())).2
      = Except.ok (demoTableName, ⟨some demoTableName⟩) :=
  ⟨(C8_create_table ⟨none⟩ demoTableName (fun _ => Except.ok ())).1,
   (C8_create_table ⟨none⟩ demoTableName
     (fun _ => Except.ok ())).2.2.2.2.2.2.1 rfl⟩

/-- Claim C9: on a key whose stored record carries attributes beyond the
four core fields, `add_book` performs a whole-item replacement — the record
read back afterwards contains exactly `isbn`, `title`, `author` and `pages`,
the extra attributes having been removed — whereas `update_book` on the same
prior state preserves every attribute other than `author` and `pages`. -/
theorem C9_add_book_replaces_whole_item
    (b : Books) (s : Store) (t : String) (tbl : TableItems)
    (isbn title author author2 : String) (pages pages2 : Int) (it0 : Item)
    (hb : b.table = some t) (ht : s.findTable t = some tbl)
    (h0 : alookup tbl ⟨isbn, title⟩ = some it0) :
    (∃ s' : Store,
      Books.add_book b s isbn title author pages = Except.ok s' ∧
      Books.get_book b s' isbn title
        = Except.ok [("isbn", AttrVal.s isbn), ("title", AttrVal.s title),
            ("author", AttrVal.s author), ("pages", AttrVal.n pages)]) ∧
    (∀ a : String, a ≠ "author" → a ≠ "pages" →
      ∃ (ret : Item) (s'' : Store),
        Books.update_book b s isbn title author2 pages2
          = Except.ok (ret, s'') ∧
        ∃ it1 : Item,
          Store.getItem s'' t ⟨isbn, title⟩ = Except.ok (some it1) ∧
          it1.get a = it0.get a) := by
  constructor
  · refine ⟨s.setTable t (aset tbl ⟨isbn, title⟩
      [("isbn", AttrVal.s isbn), ("title", AttrVal.s title),
       ("author", AttrVal.s author), ("pages", AttrVal.n pages)]), ?_, ?_⟩
    · simp [Books.add_book, hb, Store.putItem, ht, Item.keyOf, alookup]
    · simp [Books.get_book, hb, Store.getItem, findTable_setTable_self,
        alookup_aset_self]
  · intro a ha hp
    refine ⟨[("author", AttrVal.s author2), ("pages", AttrVal.n pages2)],
      s.setTable t (aset tbl ⟨isbn, title⟩
        ((it0.set "author" (AttrVal.s author2)).set "pages"
          (AttrVal.n pages2))), ?_,
      (it0.set "author" (AttrVal.s author2)).set "pages" (AttrVal.n pages2),
      ?_, ?_⟩
    · simp [Books.update_book, hb, Store.updateItem, ht, h0]
    · simp [Store.getItem, findTable_setTable_self, alookup_aset_self]
    · simp [Item.get, Item.set,
        alookup_aset_ne _ _ _ _ hp, alookup_aset_ne _ _ _ _ ha]

/-- Claim C9 witness: the stored demo book carries a `subtitle` attribute;
`add_book` on its key strips the record down to exactly the four core
fields, while `update_book` on the same prior state keeps the `subtitle`. -/
theorem C9_add_book_replaces_whole_item_witness :
    (∃ s' : Store,
      Books.add_book b0 store2 "9781593279509"
          "Eloquent JavaScript, Third Edition" "X" 1 = Except.ok s' ∧
      Books.get_book b0 s' "9781593279509" "Eloquent JavaScript, Third Edition"
        = Except.ok [("isbn", AttrVal.s "9781593279509"),
            ("title", AttrVal.s "Eloquent JavaScript, Third Edition"),
            ("author", AttrVal.s "X"), ("pages", AttrVal.n 1)]) ∧
    (∃ (ret : Item) (s'' : Store),
      Books.update_book b0 store2 "9781593279509"
          "Eloquent JavaScript, Third Edition" "X" 1 = Except.ok (ret, s'') ∧
      ∃ it1 : Item,
        Store.getItem s'' demoTableName demoKey1 = Except.ok (some it1) ∧
        it1.get "subtitle" = demoBook1.get "subtitle") := by
  obtain ⟨h1, h2⟩ :=
    C9_add_book_replaces_whole_item b0 store2 demoTableName
      [(demoKey1, demoBook1)] "9781593279509"
      "Eloquent JavaScript, Third Edition" "X" "X" 1 1 demoBook1 rfl rfl rfl
  exact ⟨h1, h2 "subtitle" (by decide) (by decide)⟩

/-- Claim C10: `delete_table` clears the retained handle to `None` exactly
when the remote delete succeeds; when the remote delete raises a service
error, that error is re-raised and the retained handle is left unchanged. -/
theorem C10_delete_table_handle
    (b : Books) (t : String) (hb : b.table = some t) :
    delete_table_run b (Except.ok ())
      = (Except.ok (), { table := none }) ∧
    (∀ e : ClientError,
      delete_table_run b (Except.error e)
        = (Except.error (PyError.client e), b) ∧
      (delete_table_run b (Except.error e)).2.table = some t) := by
  constructor
  · simp [delete_table_run, hb]
  · intro e
    constructor
    · simp [delete_table_run, hb]
    · simp [delete_table_run, hb]

/-- Claim C10 witness: a facade holding the demo table's handle keeps it
across a failing remote delete and clears it on a successful one. -/
theorem C10_delete_table_handle_witness :
    delete_table_run b0 (Except.ok ()) = (Except.ok (), ⟨none⟩) ∧
    delete_table_run b0 (Except.error ⟨"InternalServerError", "boom"⟩)
      = (Except.error (PyError.client ⟨"InternalServerError", "boom"⟩), b0) :=
  ⟨(C10_delete_table_handle b0 demoTableName rfl).1,
   ((C10_delete_table_handle b0 demoTableName rfl).2
     ⟨"InternalServerError", "boom"⟩).1⟩
